import Mathlib

/-!
Shallow embedding of the penny-vault/tradestation rebalance-execution core
(package `pvts`, file containing `TradeLink.Sync`, `createOrderRequests`,
`pvTicker2TradeStation`, `GetStrategy`, and package `tradestation`, file
`order.go`).

Conventions of the embedding:
* Go `float64` money/share amounts are modelled as `ℚ` (the claims are about
  exact arithmetic identities of the source expressions, not rounding of the
  binary format).
* Go `time.Time` values are modelled as integer timestamps; the zero value
  `time.Time{}` is `0` and `a.Before b` is `a < b`.
* Network calls are modelled by an environment record carrying each call's
  result (`Except String α`: `.error` is a non-nil Go error).
* `Sync` returns its Go result (`Option String`, `none` = nil error) together
  with a trace of the observable effects it performed, in order.
-/

namespace Pvts

/-- Transaction from pv-api (`pvts.Transaction`); only the fields read by
`createOrderRequests` are carried. -/
structure Transaction where
  kind : String
  ticker : String
  pricePerShare : ℚ
  shares : ℚ
  deriving Repr, DecidableEq

/-- Rebalance plan from pv-api (`pvts.PVRebalance`); the allocation part is
not read by the claims under study. -/
structure PVRebalance where
  transactions : List Transaction
  deriving Repr, DecidableEq

/-- Account balance (`tradestation.Balance`); only `CashBalance` is read. -/
structure Balance where
  cashBalance : ℚ
  deriving Repr, DecidableEq

/-- `tradestation.OrderRequest`.  `Action`, `TSOrderType` and
`TimeInForceDuration` are Go string types, so they are plain `String` here;
the Go zero value of `TradeAction` is the empty string. -/
structure OrderRequest where
  accountID : String
  limitPrice : ℚ
  orderConfirmID : String
  orderType : String
  quantity : ℤ
  stopPrice : ℚ
  symbol : String
  timeInForceDur : String
  tradeAction : String
  deriving Repr, DecidableEq

/-- `pvts.TradeLink` sync configuration. -/
structure TradeLink where
  portfolioID : String
  accountID : String
  lastTradeDate : ℤ
  nextTradeDate : ℤ
  deriving Repr, DecidableEq

/-- Go `strings.ReplaceAll s "/" "."`: the pattern is a single character, so
it is the character map sending `/` to `.`. -/
def replaceSlashWithDot (s : String) : String :=
  String.mk (s.data.map (fun c => if c = '/' then '.' else c))

/-- `pvts.pvTicker2TradeStation`: replace `/` with `.`, then collapse the
dual-class pair by mapping `BRK.A` to `BRK.B`. -/
def pvTicker2TradeStation (ticker : String) : String :=
  let t := replaceSlashWithDot ticker
  if t = "BRK.A" then "BRK.B" else t

/-- Go conversion `int64(x)` for `x : float64`: the fractional part is
discarded (truncation toward zero). -/
def goTrunc (x : ℚ) : ℤ :=
  if 0 ≤ x then ⌊x⌋ else ⌈x⌉

/-- `(*TradeLink).createOrderRequests`: one `OrderRequest` per transaction.
The `switch` on `trx.Kind` only chooses `TradeAction`; the `default` arm logs
a warning and leaves `TradeAction` at its zero value, and the append after
the switch is unconditional, so every transaction — known kind or not —
produces an order.  The `balance` parameter is accepted but never read, as in
the source. -/
def createOrderRequests (tl : TradeLink) (strategyPlan : PVRebalance)
    (balance : Balance) : List OrderRequest :=
  strategyPlan.transactions.map (fun trx =>
    { accountID := tl.accountID
      limitPrice := trx.pricePerShare
      orderConfirmID := ""
      orderType := "Limit"
      quantity := goTrunc trx.shares
      stopPrice := 0
      symbol := pvTicker2TradeStation trx.ticker
      timeInForceDur := "DAY"
      tradeAction :=
        match trx.kind with
        | "SELL" => "SELL"
        | "BUY" => "BUY"
        | _ => "" })

/-- A bid/ask quote from TradeStation (`tradestation.Quote`); only the fields
read by the pricing loop of `GetStrategy` are carried. -/
structure Quote where
  symbol : String
  bid : ℚ
  ask : ℚ
  deriving Repr, DecidableEq

/-- The reference-price expression of `GetStrategy`:
`q.Bid + ((q.Ask - q.Bid) / 2)`. -/
def midPrice (q : Quote) : ℚ :=
  q.bid + ((q.ask - q.bid) / 2)

/-- Go map assignment `m[k] = v` on a `map[string]float64`, with the map
modelled as a lookup function. -/
def mapInsert (m : String → Option ℚ) (k : String) (v : ℚ) :
    String → Option ℚ :=
  fun x => if x = k then some v else m x

/-- One iteration of the pricing loop of `GetStrategy` (lines 264-280):
record the midpoint under the quote symbol's FIGI, and when the quote is for
`BRK.B` additionally record the same midpoint under the FIGI of `BRK.A`.
`figiOf` abstracts a successful `securityFromSymbol` lookup. -/
def priceStep (figiOf : String → String) (prices : String → Option ℚ)
    (q : Quote) : String → Option ℚ :=
  let prices := mapInsert prices (figiOf q.symbol) (midPrice q)
  if q.symbol = "BRK.B" then mapInsert prices (figiOf "BRK.A") (midPrice q)
  else prices

/-- The price snapshot built by `GetStrategy` from the quote list, starting
from the empty map `prices := make(map[string]float64)`. -/
def buildPrices (figiOf : String → String) (quotes : List Quote) :
    String → Option ℚ :=
  quotes.foldl (priceStep figiOf) (fun _ => none)

/-- One leg of a placed order (`tradestation.OrderLeg`), as read by the fill
report loop of `Sync`. -/
structure Leg where
  symbol : String
  buyOrSell : String
  execQuantity : ℤ
  quantityRemaining : ℤ
  deriving Repr, DecidableEq

/-- A placed order (`tradestation.Order`), as read by the fill report loop
of `Sync`. -/
structure Order where
  orderID : String
  statusDescription : String
  legs : List Leg
  deriving Repr, DecidableEq

/-- Go `strings.ToUpper`: uppercase every rune of the string (the
confirmation answers at issue are ASCII, where this is exactly
`Char.toUpper`). -/
def goToUpper (s : String) : String :=
  String.mk (s.data.map Char.toUpper)

/-- The cash bookkeeping loop of `Sync` (lines 343-352): running cash starts
at the account cash balance, is decremented by `LimitPrice * Quantity` when
`TradeAction == "BUY"`, and incremented by the same product otherwise. -/
def computeCashLeft (start : ℚ) (orders : List OrderRequest) : ℚ :=
  orders.foldl
    (fun cashLeft o =>
      if o.tradeAction = "BUY" then cashLeft - o.limitPrice * (o.quantity : ℚ)
      else cashLeft + o.limitPrice * (o.quantity : ℚ))
    start

/-- The observable effects of one `Sync` run, in program order: each
brokerage / pv-api call, the plan table (with its projected cash), the
interactive confirmation prompt, the group-order submission (with the exact
request list), and the fill report table. -/
inductive SyncEvent where
  | getAccount
  | getPositions
  | convertPositions
  | getBalances
  | getStrategy
  | displayPlan (cashLeft : ℚ)
  | confirmPrompt
  | placeGroupOrder (reqs : List OrderRequest)
  | displayFills (orders : List Order)
  deriving Repr, DecidableEq

/-- Environment of one `Sync` run: the wall clock and the result of each
external interaction, in the order `Sync` performs them.  `confirmInput` is
what `fmt.Scanln` reads at the confirmation prompt. -/
structure SyncEnv where
  now : ℤ
  accountResult : Except String Unit
  positionsResult : Except String Unit
  convertResult : Except String Unit
  balanceResult : Except String Balance
  strategyResult : Except String PVRebalance
  confirmInput : String
  placeResult : Except String (List Order)

/-- `(*TradeLink).Sync` (lines 293-396), as a function of its environment.
Control flow mirrors the source exactly:
* the trade-date gate returns nil before any external call;
* each early error path returns that error after the calls made so far;
* `confirmed` is true when `autoConfirm` is set, otherwise when the prompt
  answer uppercases to `"Y"`; an unconfirmed run returns the
  "user did not confirm transactions" error before any submission;
* a `PlaceGroupOrder` error is only logged — the function still renders the
  (empty) fill table and returns nil, exactly as in the source, where the
  `if err != nil` block after `PlaceGroupOrder` has no `return`. -/
def Sync (tl : TradeLink) (env : SyncEnv) (autoConfirm : Bool) :
    Option String × List SyncEvent :=
  if tl.lastTradeDate ≠ 0 ∧ env.now < tl.nextTradeDate then
    (none, [])
  else
    match env.accountResult with
    | .error e => (some e, [.getAccount])
    | .ok _ =>
      match env.positionsResult with
      | .error e => (some e, [.getAccount, .getPositions])
      | .ok _ =>
        match env.convertResult with
        | .error e => (some e, [.getAccount, .getPositions, .convertPositions])
        | .ok _ =>
          match env.balanceResult with
          | .error e =>
              (some e,
               [.getAccount, .getPositions, .convertPositions, .getBalances])
          | .ok balance =>
            match env.strategyResult with
            | .error e =>
                (some e,
                 [.getAccount, .getPositions, .convertPositions, .getBalances,
                  .getStrategy])
            | .ok strategyPlan =>
              let orderReqs := createOrderRequests tl strategyPlan balance
              let cashLeft := computeCashLeft balance.cashBalance orderReqs
              let preTrace : List SyncEvent :=
                [.getAccount, .getPositions, .convertPositions, .getBalances,
                 .getStrategy, .displayPlan cashLeft]
              let confirmTrace : List SyncEvent :=
                if autoConfirm then [] else [.confirmPrompt]
              let confirmed :=
                if autoConfirm then true
                else decide (goToUpper env.confirmInput = "Y")
              if confirmed then
                match env.placeResult with
                | .error _e =>
                    (none,
                     preTrace ++ confirmTrace ++
                       [.placeGroupOrder orderReqs, .displayFills []])
                | .ok orders =>
                    (none,
                     preTrace ++ confirmTrace ++
                       [.placeGroupOrder orderReqs, .displayFills orders])
              else
                (some "user did not confirm transactions",
                 preTrace ++ confirmTrace)

/-- True exactly on group-order submission events. -/
def SyncEvent.isPlaceGroupOrder : SyncEvent → Bool
  | .placeGroupOrder _ => true
  | _ => false

/-! Concrete sample inputs used by the closed-form evaluations below. -/

/-- A sync configuration whose trade-date gate is open
(`LastTradeDate` is the zero time). -/
def sampleTl : TradeLink :=
  { portfolioID := "p1", accountID := "a1", lastTradeDate := 0,
    nextTradeDate := 0 }

/-- An account balance of 1000 in cash. -/
def sampleBalance : Balance :=
  { cashBalance := 1000 }

/-- A transaction whose kind is neither BUY nor SELL. -/
def unknownKindTrx : Transaction :=
  { kind := "DIVIDEND", ticker := "AAPL", pricePerShare := 10, shares := 5 }

/-- A BUY transaction: 100 shares of MSFT at a 10.00 reference price. -/
def buyTrx : Transaction :=
  { kind := "BUY", ticker := "MSFT", pricePerShare := 10, shares := 100 }

/-- A SELL transaction: 10 shares of AAPL at a 7.00 reference price. -/
def sellTrx : Transaction :=
  { kind := "SELL", ticker := "AAPL", pricePerShare := 7, shares := 10 }

/-- An environment in which every external call succeeds, the plan is empty,
and the operator would answer "N" if prompted. -/
def sampleEnvBase : SyncEnv :=
  { now := 5
    accountResult := .ok ()
    positionsResult := .ok ()
    convertResult := .ok ()
    balanceResult := .ok sampleBalance
    strategyResult := .ok { transactions := [] }
    confirmInput := "N"
    placeResult := .ok [] }

/-- Environment in which planning returns one BUY and the group-order
submission fails with an HTTP-level error. -/
def placeErrorEnv : SyncEnv :=
  { sampleEnvBase with
    strategyResult := .ok { transactions := [buyTrx] }
    placeResult := .error "error placing orders" }

/-- Environment in which planning returns an empty transaction list. -/
def emptyPlanEnv : SyncEnv :=
  { sampleEnvBase with
    strategyResult := .ok { transactions := [] }
    placeResult := .ok [] }

/-- Environment in which the submitted 100-share BUY comes back partially
filled: 60 executed, 40 remaining. -/
def partialFillEnv : SyncEnv :=
  { sampleEnvBase with
    strategyResult := .ok { transactions := [buyTrx] }
    placeResult := .ok
      [{ orderID := "123", statusDescription := "Sent",
         legs := [{ symbol := "MSFT", buyOrSell := "Buy",
                    execQuantity := 60, quantityRemaining := 40 }] }] }

/-- Environment in which every call succeeds, the plan holds one BUY, and
the operator answers "N" at the confirmation prompt. -/
def declineEnv : SyncEnv :=
  { sampleEnvBase with
    strategyResult := .ok { transactions := [buyTrx] } }

/-- A one-transaction plan entry of the given kind and fractional share
quantity, for the boundary-value evaluations. -/
def boundaryTrx (kind : String) (s : ℚ) : Transaction :=
  { kind := kind, ticker := "MSFT", pricePerShare := 10, shares := s }

/-- A concrete security-directory lookup for the pricing evaluations:
prepend a marker so distinct tickers get distinct FIGIs. -/
def sampleFigi (s : String) : String :=
  String.append "FIGI-" s

/-- A concrete quote list holding the lower-priced dual-class symbol. -/
def sampleQuotes : List Quote :=
  [{ symbol := "BRK.B", bid := 100, ask := 102 },
   { symbol := "AAPL", bid := 10, ask := 11 }]

end Pvts

namespace Pvts

/-! Helper lemmas about the pricing fold and the cash ledger fold. -/

/-- One pricing step leaves every key other than the quote's own FIGI (and,
for a `BRK.B` quote, the FIGI of `BRK.A`) unchanged. -/
lemma priceStep_lookup_ne (figiOf : String → String)
    (prices : String → Option ℚ) (q : Quote) (k : String)
    (h1 : k ≠ figiOf q.symbol)
    (h2 : q.symbol = "BRK.B" → k ≠ figiOf "BRK.A") :
    priceStep figiOf prices q k = prices k := by
  unfold priceStep mapInsert
  by_cases hb : q.symbol = "BRK.B"
  · rw [hb] at h1
    simp [hb, h1, h2 hb]
  · simp [hb, h1]

/-- The pricing fold leaves a key unchanged when no quote in the list writes
it. -/
lemma foldPrices_pres (figiOf : String → String) (l : List Quote)
    (acc : String → Option ℚ) (k : String)
    (h1 : ∀ q ∈ l, k ≠ figiOf q.symbol)
    (h2 : ∀ q ∈ l, q.symbol = "BRK.B" → k ≠ figiOf "BRK.A") :
    l.foldl (priceStep figiOf) acc k = acc k := by
  induction l generalizing acc with
  | nil => rfl
  | cons q rest ih =>
      rw [List.foldl_cons,
        ih _ (fun q' hq' => h1 q' (List.mem_cons_of_mem _ hq'))
          (fun q' hq' => h2 q' (List.mem_cons_of_mem _ hq')),
        priceStep_lookup_ne figiOf acc q k (h1 q (List.mem_cons_self _ _))
          (h2 q (List.mem_cons_self _ _))]

/-- After the pricing fold, the entry under a quoted symbol's FIGI is that
quote's midpoint, provided the quotes map to pairwise-distinct FIGIs and no
quoted symbol shares the FIGI of `BRK.A`. -/
lemma foldPrices_lookup_of_mem (figiOf : String → String) (l : List Quote)
    (acc : String → Option ℚ) (q : Quote)
    (hnodup : (l.map (fun q => figiOf q.symbol)).Nodup)
    (hA : ∀ q' ∈ l, figiOf "BRK.A" ≠ figiOf q'.symbol)
    (hq : q ∈ l) :
    l.foldl (priceStep figiOf) acc (figiOf q.symbol) = some (midPrice q) := by
  induction l generalizing acc with
  | nil => cases hq
  | cons q' rest ih =>
      rw [List.foldl_cons]
      rcases List.mem_cons.mp hq with heq | hmem
      · subst heq
        have hnotin : figiOf q.symbol ∉ rest.map (fun q => figiOf q.symbol) :=
          (List.nodup_cons.mp hnodup).1
        rw [foldPrices_pres figiOf rest _ (figiOf q.symbol)
            (fun q'' h'' hk =>
              hnotin (by rw [hk]; exact List.mem_map_of_mem _ h''))
            (fun q'' h'' _ => (hA q (List.mem_cons_self _ _)).symm)]
        unfold priceStep mapInsert
        by_cases hb : q.symbol = "BRK.B" <;> simp [hb]
      · exact ih _ (List.nodup_cons.mp hnodup).2
          (fun q'' h'' => hA q'' (List.mem_cons_of_mem _ h'')) hmem

/-- After the pricing fold, the entry under the FIGI of `BRK.A` is the
midpoint of the `BRK.B` quote when one is present. -/
lemma foldPrices_brka_lookup (figiOf : String → String) (l : List Quote)
    (acc : String → Option ℚ) (q : Quote)
    (hnodup : (l.map (fun q => figiOf q.symbol)).Nodup)
    (hA : ∀ q' ∈ l, figiOf "BRK.A" ≠ figiOf q'.symbol)
    (hq : q ∈ l) (hsym : q.symbol = "BRK.B") :
    l.foldl (priceStep figiOf) acc (figiOf "BRK.A") = some (midPrice q) := by
  induction l generalizing acc with
  | nil => cases hq
  | cons q' rest ih =>
      rw [List.foldl_cons]
      rcases List.mem_cons.mp hq with heq | hmem
      · subst heq
        have hnotin : figiOf q.symbol ∉ rest.map (fun q => figiOf q.symbol) :=
          (List.nodup_cons.mp hnodup).1
        rw [foldPrices_pres figiOf rest _ (figiOf "BRK.A")
            (fun q'' h'' => hA q'' (List.mem_cons_of_mem _ h''))
            (fun q'' h'' hb'' _ =>
              hnotin (by rw [hsym, ← hb'']; exact List.mem_map_of_mem _ h''))]
        unfold priceStep mapInsert
        simp [hsym]
      · exact ih _ (List.nodup_cons.mp hnodup).2
          (fun q'' h'' => hA q'' (List.mem_cons_of_mem _ h'')) hmem

/-- The cash ledger fold splits into the starting balance minus the BUY
notionals plus the SELL notionals, when every action is BUY or SELL. -/
lemma computeCashLeft_split (orders : List OrderRequest) (start : ℚ)
    (h : ∀ o ∈ orders, o.tradeAction = "BUY" ∨ o.tradeAction = "SELL") :
    computeCashLeft start orders =
      start -
        ((orders.filter (fun o => o.tradeAction = "BUY")).map
          (fun o => o.limitPrice * (o.quantity : ℚ))).sum +
        ((orders.filter (fun o => o.tradeAction = "SELL")).map
          (fun o => o.limitPrice * (o.quantity : ℚ))).sum := by
  induction orders generalizing start with
  | nil => simp [computeCashLeft]
  | cons o rest ih =>
      have hrest :
          ∀ o' ∈ rest, o'.tradeAction = "BUY" ∨ o'.tradeAction = "SELL" :=
        fun o' h' => h o' (List.mem_cons_of_mem _ h')
      have step : computeCashLeft start (o :: rest) =
          computeCashLeft
            (if o.tradeAction = "BUY" then
              start - o.limitPrice * (o.quantity : ℚ)
             else start + o.limitPrice * (o.quantity : ℚ)) rest := rfl
      rcases h o (List.mem_cons_self _ _) with hb | hs
      · rw [step, ih _ hrest]
        simp [hb, List.filter_cons]
        ring
      · have hnb : ¬ o.tradeAction = "BUY" := by rw [hs]; decide
        rw [step, ih _ hrest]
        simp [hs, hnb, List.filter_cons]
        ring

/-- C1: the claim says a transaction of unknown kind produces no
OrderRequest.  Evaluating `createOrderRequests` at a plan holding a single
transaction of kind "DIVIDEND" shows the opposite: the transaction is NOT
dropped — it still produces exactly one OrderRequest, whose trade action is
the zero-value empty string, because the `switch` default arm only logs and
the append after the switch is unconditional. -/
theorem c1_unknown_kind_still_produces_order :
    (createOrderRequests sampleTl { transactions := [unknownKindTrx] }
        sampleBalance).length = 1 ∧
    (createOrderRequests sampleTl { transactions := [unknownKindTrx] }
        sampleBalance).map (fun o => o.tradeAction) = [""] := by
  decide

/-- C2: the claim says a `PlaceGroupOrder` error aborts `Sync` with a
non-nil error.  Evaluating `Sync` in an environment where every call up to
submission succeeds and `PlaceGroupOrder` fails shows that the submission is
attempted, yet `Sync` still returns nil: the error is logged but the
`if err != nil` block after `PlaceGroupOrder` has no `return`. -/
theorem c2_place_group_order_error_returns_nil :
    (Sync sampleTl placeErrorEnv true).1 = none ∧
    SyncEvent.placeGroupOrder
        (createOrderRequests sampleTl { transactions := [buyTrx] }
          sampleBalance) ∈
      (Sync sampleTl placeErrorEnv true).2 := by
  decide

/-- C10: when the config has a non-zero `LastTradeDate` and `NextTradeDate`
is still in the future, `Sync` returns nil immediately and performs no
external interaction at all (empty effect trace): the trade-date gate at the
top of `Sync` fires before any brokerage call. -/
theorem c10_trade_date_gate (tl : TradeLink) (env : SyncEnv)
    (autoConfirm : Bool) (hlast : tl.lastTradeDate ≠ 0)
    (hnext : env.now < tl.nextTradeDate) :
    Sync tl env autoConfirm = (none, []) := by
  unfold Sync
  rw [if_pos ⟨hlast, hnext⟩]

/-- C10 witness: the gate fires for a concrete config with
`lastTradeDate = 3` and `nextTradeDate = 9` at clock time 5. -/
theorem c10_trade_date_gate_witness :
    Sync { portfolioID := "p1", accountID := "a1", lastTradeDate := 3,
           nextTradeDate := 9 }
      sampleEnvBase false = (none, []) :=
  c10_trade_date_gate _ _ false (by decide) (by decide)

/-- C3 counterexample: the claim says an empty plan means no order
submission call is ever made.  Evaluating `Sync` in an environment where
planning succeeds with an empty transaction list (auto-confirmed) shows the
empty order group IS submitted: `Sync` has no empty-plan short-circuit. -/
theorem c3_empty_plan_counterexample :
    SyncEvent.placeGroupOrder [] ∈ (Sync sampleTl emptyPlanEnv true).2 := by
  decide

/-- C3 amended: when planning yields an empty transaction list, `Sync` does
NOT short-circuit: without the auto-confirm flag the confirmation prompt is
still shown, and on a confirmed run the (empty) order group is still
submitted to the brokerage. -/
theorem c3_empty_plan_not_short_circuited (tl : TradeLink) (env : SyncEnv)
    (balance : Balance)
    (hdate : ¬(tl.lastTradeDate ≠ 0 ∧ env.now < tl.nextTradeDate))
    (hacc : env.accountResult = .ok ())
    (hpos : env.positionsResult = .ok ())
    (hconv : env.convertResult = .ok ())
    (hbal : env.balanceResult = .ok balance)
    (hstrat : env.strategyResult = .ok { transactions := [] }) :
    SyncEvent.confirmPrompt ∈ (Sync tl env false).2 ∧
    SyncEvent.placeGroupOrder [] ∈ (Sync tl env true).2 := by
  constructor
  · by_cases hc : goToUpper env.confirmInput = "Y"
    · cases hplace : env.placeResult with
      | error e =>
          simp [Sync, hacc, hpos, hconv, hbal, hstrat, if_neg hdate, hc,
            hplace]
      | ok os =>
          simp [Sync, hacc, hpos, hconv, hbal, hstrat, if_neg hdate, hc,
            hplace]
    · simp [Sync, hacc, hpos, hconv, hbal, hstrat, if_neg hdate, hc]
  · cases hplace : env.placeResult with
    | error e =>
        simp [Sync, hacc, hpos, hconv, hbal, hstrat, if_neg hdate, hplace,
          createOrderRequests]
    | ok os =>
        simp [Sync, hacc, hpos, hconv, hbal, hstrat, if_neg hdate, hplace,
          createOrderRequests]

/-- C3 witness: the amended behavior at the concrete empty-plan
environment. -/
theorem c3_empty_plan_witness :
    SyncEvent.confirmPrompt ∈ (Sync sampleTl emptyPlanEnv false).2 ∧
    SyncEvent.placeGroupOrder [] ∈ (Sync sampleTl emptyPlanEnv true).2 :=
  c3_empty_plan_not_short_circuited sampleTl emptyPlanEnv sampleBalance
    (by decide) rfl rfl rfl rfl rfl

/-- C4 counterexample: the claim says a partially filled submission makes
the controller fold the remainder back and re-enter planning.  Evaluating
`Sync` in an environment where the submitted 100-share BUY comes back with
60 executed and 40 remaining shows a single planning call, a single
submission, and a nil return: nothing is re-planned. -/
theorem c4_partial_fill_counterexample :
    (Sync sampleTl partialFillEnv true).1 = none ∧
    ((Sync sampleTl partialFillEnv true).2.filter
      SyncEvent.isPlaceGroupOrder).length = 1 ∧
    (Sync sampleTl partialFillEnv true).2.count SyncEvent.getStrategy = 1 := by
  decide

/-- C4 amended: `Sync` is a single submit-and-report pass: in every
environment it requests a strategy plan at most once and submits a group
order at most once; unfilled remainders are only displayed in the fill
table, never folded back into positions or re-planned. -/
theorem c4_sync_is_single_pass (tl : TradeLink) (env : SyncEnv)
    (autoConfirm : Bool) :
    ((Sync tl env autoConfirm).2.filter
      SyncEvent.isPlaceGroupOrder).length ≤ 1 ∧
    (Sync tl env autoConfirm).2.count SyncEvent.getStrategy ≤ 1 := by
  rcases env with ⟨now, acc, pos, conv, bal, strat, input, place⟩
  cases acc <;> cases pos <;> cases conv <;> cases bal <;> cases strat <;>
    cases place <;> cases autoConfirm <;>
      simp [Sync, SyncEvent.isPlaceGroupOrder, List.count_append,
        List.count_cons, List.count_nil] <;>
      split_ifs <;>
      simp [List.count_append, List.count_cons, List.count_nil,
        SyncEvent.isPlaceGroupOrder]

/-- C5: on a run without the auto-confirm flag in which the prompt answer
does not uppercase to "Y", `Sync` returns the "user did not confirm
transactions" error and its trace contains no group-order submission at all;
on a run with the flag, the gate is passed automatically and the submission
is reached. -/
theorem c5_confirmation_gate (tl : TradeLink) (env : SyncEnv)
    (balance : Balance) (plan : PVRebalance)
    (hdate : ¬(tl.lastTradeDate ≠ 0 ∧ env.now < tl.nextTradeDate))
    (hacc : env.accountResult = .ok ())
    (hpos : env.positionsResult = .ok ())
    (hconv : env.convertResult = .ok ())
    (hbal : env.balanceResult = .ok balance)
    (hstrat : env.strategyResult = .ok plan)
    (hdecline : goToUpper env.confirmInput ≠ "Y") :
    (Sync tl env false).1 = some "user did not confirm transactions" ∧
    (∀ reqs, SyncEvent.placeGroupOrder reqs ∉ (Sync tl env false).2) ∧
    SyncEvent.placeGroupOrder (createOrderRequests tl plan balance) ∈
      (Sync tl env true).2 := by
  refine ⟨?_, ?_, ?_⟩
  · simp [Sync, hacc, hpos, hconv, hbal, hstrat, if_neg hdate, hdecline]
  · intro reqs
    simp [Sync, hacc, hpos, hconv, hbal, hstrat, if_neg hdate, hdecline]
  · cases hplace : env.placeResult with
    | error e =>
        simp [Sync, hacc, hpos, hconv, hbal, hstrat, if_neg hdate, hplace]
    | ok os =>
        simp [Sync, hacc, hpos, hconv, hbal, hstrat, if_neg hdate, hplace]

/-- C5 witness: the gate at a concrete environment where the operator
answers "N". -/
theorem c5_confirmation_gate_witness :
    (Sync sampleTl declineEnv false).1 =
      some "user did not confirm transactions" ∧
    (∀ reqs,
      SyncEvent.placeGroupOrder reqs ∉ (Sync sampleTl declineEnv false).2) ∧
    SyncEvent.placeGroupOrder
        (createOrderRequests sampleTl { transactions := [buyTrx] }
          sampleBalance) ∈
      (Sync sampleTl declineEnv true).2 :=
  c5_confirmation_gate sampleTl declineEnv sampleBalance
    { transactions := [buyTrx] } (by decide) rfl rfl rfl rfl rfl (by decide)

/-- C6: the order built from a single BUY or SELL transaction with
non-negative fractional share quantity S carries integer quantity ⌊S⌋ (the
Go `int64` conversion truncates, which for non-negative S is the floor), and
its action is the transaction's kind. -/
theorem c6_quantity_truncated_to_floor (tl : TradeLink) (bal : Balance)
    (trx : Transaction)
    (hkind : trx.kind = "BUY" ∨ trx.kind = "SELL")
    (hpos : 0 ≤ trx.shares) :
    (createOrderRequests tl { transactions := [trx] } bal).map
      (fun o => (o.tradeAction, o.quantity)) = [(trx.kind, ⌊trx.shares⌋)] := by
  rcases hkind with h | h <;>
    simp [createOrderRequests, goTrunc, if_pos hpos, h]

/-- C6 witness: the boundary cases S = 0.0, 0.999, 1.5, 1.999 give
quantities 0, 0, 1, 1, in both the BUY and the SELL direction. -/
theorem c6_quantity_boundary_witness :
    (createOrderRequests sampleTl
        { transactions := [boundaryTrx "BUY" 0] } sampleBalance).map
      (fun o => (o.tradeAction, o.quantity)) = [("BUY", 0)] ∧
    (createOrderRequests sampleTl
        { transactions := [boundaryTrx "SELL" (999/1000)] } sampleBalance).map
      (fun o => (o.tradeAction, o.quantity)) = [("SELL", 0)] ∧
    (createOrderRequests sampleTl
        { transactions := [boundaryTrx "BUY" (3/2)] } sampleBalance).map
      (fun o => (o.tradeAction, o.quantity)) = [("BUY", 1)] ∧
    (createOrderRequests sampleTl
        { transactions := [boundaryTrx "SELL" (1999/1000)] } sampleBalance).map
      (fun o => (o.tradeAction, o.quantity)) = [("SELL", 1)] := by
  refine ⟨?_, ?_, ?_, ?_⟩ <;>
    rw [c6_quantity_truncated_to_floor _ _ _ (by simp [boundaryTrx])
      (by norm_num [boundaryTrx])] <;>
      norm_num [boundaryTrx, Int.floor_eq_iff]

/-- C7: when the quote list contains a `BRK.B` quote (quotes mapping to
pairwise-distinct FIGIs, none of them the FIGI of `BRK.A`), the price
snapshot holds an entry for the FIGI of `BRK.A` equal to the entry for the
FIGI of `BRK.B` — both the `BRK.B` quote's midpoint — and the broker-symbol
resolution maps `BRK.A` to `BRK.B`. -/
theorem c7_dual_class_price_propagation (figiOf : String → String)
    (quotes : List Quote) (q : Quote)
    (hnodup : (quotes.map (fun q => figiOf q.symbol)).Nodup)
    (hA : ∀ q' ∈ quotes, figiOf "BRK.A" ≠ figiOf q'.symbol)
    (hq : q ∈ quotes) (hsym : q.symbol = "BRK.B") :
    buildPrices figiOf quotes (figiOf "BRK.A") =
      buildPrices figiOf quotes (figiOf "BRK.B") ∧
    buildPrices figiOf quotes (figiOf "BRK.A") = some (midPrice q) ∧
    pvTicker2TradeStation "BRK.A" = "BRK.B" := by
  have hA' : buildPrices figiOf quotes (figiOf "BRK.A") =
      some (midPrice q) :=
    foldPrices_brka_lookup figiOf quotes (fun _ => none) q hnodup hA hq hsym
  have hB : buildPrices figiOf quotes (figiOf q.symbol) =
      some (midPrice q) :=
    foldPrices_lookup_of_mem figiOf quotes (fun _ => none) q hnodup hA hq
  rw [hsym] at hB
  exact ⟨hA'.trans hB.symm, hA', by decide⟩

/-- C7 witness: with a concrete quote list holding BRK.B at bid 100 /
ask 102, the snapshot entry for the FIGI of BRK.A equals the BRK.B entry and
is 101. -/
theorem c7_dual_class_witness :
    buildPrices sampleFigi sampleQuotes (sampleFigi "BRK.A") =
      buildPrices sampleFigi sampleQuotes (sampleFigi "BRK.B") ∧
    buildPrices sampleFigi sampleQuotes (sampleFigi "BRK.A") = some 101 ∧
    pvTicker2TradeStation "BRK.A" = "BRK.B" := by
  have h := c7_dual_class_price_propagation sampleFigi sampleQuotes
    { symbol := "BRK.B", bid := 100, ask := 102 } (by decide) (by decide)
    (by decide) rfl
  exact ⟨h.1, h.2.1.trans (by norm_num [midPrice]), h.2.2⟩

/-- C8: for every quote in the list (quotes mapping to pairwise-distinct
FIGIs, none of them the FIGI of `BRK.A`), the snapshot entry recorded under
that quote's security identifier is `bid + (ask − bid) / 2`, the bid/ask
midpoint. -/
theorem c8_reference_price_is_midpoint (figiOf : String → String)
    (quotes : List Quote) (q : Quote)
    (hnodup : (quotes.map (fun q => figiOf q.symbol)).Nodup)
    (hA : ∀ q' ∈ quotes, figiOf "BRK.A" ≠ figiOf q'.symbol)
    (hq : q ∈ quotes) :
    buildPrices figiOf quotes (figiOf q.symbol) =
      some (q.bid + ((q.ask - q.bid) / 2)) :=
  foldPrices_lookup_of_mem figiOf quotes (fun _ => none) q hnodup hA hq

/-- C8 witness: the AAPL quote at bid 10 / ask 11 yields the snapshot entry
21/2 = 10.5, its midpoint. -/
theorem c8_midpoint_witness :
    buildPrices sampleFigi sampleQuotes (sampleFigi "AAPL") =
      some (21 / 2) :=
  (c8_reference_price_is_midpoint sampleFigi sampleQuotes
    { symbol := "AAPL", bid := 10, ask := 11 }
    (by decide) (by decide) (by decide)).trans (by norm_num)

/-- C9: for an order list whose actions are all BUY or SELL, the displayed
projected cash equals the starting balance minus the BUY notionals
(limit price × quantity) plus the SELL notionals; and the ledger never gates
order construction — `createOrderRequests` ignores the balance entirely and
emits one order per transaction regardless of cash. -/
theorem c9_cash_ledger_formula (start : ℚ) (orders : List OrderRequest)
    (h : ∀ o ∈ orders, o.tradeAction = "BUY" ∨ o.tradeAction = "SELL") :
    computeCashLeft start orders =
      start -
        ((orders.filter (fun o => o.tradeAction = "BUY")).map
          (fun o => o.limitPrice * (o.quantity : ℚ))).sum +
        ((orders.filter (fun o => o.tradeAction = "SELL")).map
          (fun o => o.limitPrice * (o.quantity : ℚ))).sum ∧
    (∀ tl plan b1 b2,
      createOrderRequests tl plan b1 = createOrderRequests tl plan b2) ∧
    (∀ tl plan bal,
      (createOrderRequests tl plan bal).length =
        plan.transactions.length) :=
  ⟨computeCashLeft_split orders start h, fun _ _ _ _ => rfl,
   fun _ plan _ => by simp [createOrderRequests]⟩

/-- C9 witness: the spec scenario — SELL 10 AAPL at 7.00 and BUY 100 MSFT at
10.00 from 1000 cash — displays 1000 − 10.00×100 + 7.00×10 = 70. -/
theorem c9_cash_ledger_witness :
    computeCashLeft 1000
      (createOrderRequests sampleTl
        { transactions := [sellTrx, buyTrx] } sampleBalance) =
      1000 - 10 * 100 + 7 * 10 := by
  rw [(c9_cash_ledger_formula 1000 _ (by decide)).1]
  have h1 : ("SELL" : String) ≠ "BUY" := by decide
  have h2 : ("BUY" : String) ≠ "SELL" := by decide
  norm_num [createOrderRequests, sellTrx, buyTrx, sampleTl, goTrunc,
    pvTicker2TradeStation, List.filter_cons, h1, h2, Int.floor_eq_iff]

end Pvts
